import Mathlib

/-!
Verification of the `asyncify` decorator library

A shallow embedding of the four modules of the repository
(`asyncify/func.py`, `asyncify/cls.py`, `asyncify/hybrid.py`,
`asyncify/events.py`) together with theorems settling the frozen claims
about their behaviour.

Python callables are modelled by the inductive `PyFunc`; the host
runtime's event-loop primitives (`asyncio.get_running_loop`,
`loop.run_until_complete`) are modelled with their documented semantics:
`get_running_loop` returns the loop currently running in the calling
thread (raising a `RuntimeError` when there is none), and
`run_until_complete` raises a `RuntimeError` when invoked on a loop that
is already running.
-/

set_option autoImplicit false

namespace Asyncify

/-- The two exception classes the repository raises directly. -/
inductive PyError where
  | typeError
  | runtimeError
deriving DecidableEq, Repr

/-!
The module `asyncify/func.py`.

`PyFunc` models the Python callables that can be handed to
`asyncify_func` / `syncify_func`:

* `plainFn` — a `def` function (`inspect.isfunction` holds,
  `inspect.iscoroutinefunction` does not); `impl` gives the result of
  invoking it (a value or a raised exception).  `ignoreFlag` models the
  presence of the `_asyncify_ignore` attribute set by `asyncify.ignore`.
* `coroFn` — an `async def` function; `impl` gives the result of
  awaiting the coroutine it produces.
* `callableObj` — a callable that is not a function object (builtin,
  instance with `__call__`, `functools.partial`, ...); when
  `returnsAwaitable` is true, invoking it produces an awaitable whose
  awaited result is `impl args`.
* `nonCallable` — any non-callable object.
* `asyncWrapper f` — the `async_func` closure `asyncify_func` builds
  around `f` (an `async def`, hence a coroutine function).
* `syncWrapper f` — the `sync_func` closure `syncify_func` builds around
  `f` (a plain `def` function).
-/
inductive PyFunc where
  | plainFn (id : Nat) (ignoreFlag : Bool) (impl : List Nat → Except PyError Nat)
  | coroFn (id : Nat) (ignoreFlag : Bool) (impl : List Nat → Except PyError Nat)
  | callableObj (id : Nat) (returnsAwaitable : Bool) (impl : List Nat → Except PyError Nat)
  | nonCallable (id : Nat)
  | asyncWrapper (inner : PyFunc)
  | syncWrapper (inner : PyFunc)

/-- Python's `callable(...)`: everything here is callable except plain
non-callable objects. -/
def pyCallable : PyFunc → Bool
  | .nonCallable _ => false
  | _ => true

/-- Embeds `inspect.iscoroutinefunction`: `async def` functions, including the
`async_func` wrapper produced by `asyncify_func`. -/
def iscoroutinefunction : PyFunc → Bool
  | .coroFn _ _ _ => true
  | .asyncWrapper _ => true
  | _ => false

/-- Embeds `inspect.isfunction`: function objects (plain or `async def`), which
includes both wrapper closures; callable objects and non-callables are
not function objects. -/
def isfunction : PyFunc → Bool
  | .plainFn _ _ _ => true
  | .coroFn _ _ _ => true
  | .asyncWrapper _ => true
  | .syncWrapper _ => true
  | _ => false

/-- Whether invoking the callable yields an awaitable (the semantic
notion used by the spec's phrase "awaitable-returning"). -/
def returnsAwaitable : PyFunc → Bool
  | .coroFn _ _ _ => true
  | .asyncWrapper _ => true
  | .callableObj _ ra _ => ra
  | _ => false

/-- The `_asyncify_ignore` attribute (`getattr(func, '_asyncify_ignore',
False)`).  `functools.wraps` copies `__dict__`, so the flag survives a
wrapping. -/
def asyncifyIgnoreFlag : PyFunc → Bool
  | .plainFn _ ig _ => ig
  | .coroFn _ ig _ => ig
  | .asyncWrapper inner => asyncifyIgnoreFlag inner
  | .syncWrapper inner => asyncifyIgnoreFlag inner
  | _ => false

/-- Embeds `asyncify_func` (asyncify/func.py, lines 25–68), embedded exactly as
written, including the branch order of its checks:

```
if inspect.iscoroutinefunction(func): return func
if callable(func): raise TypeError(...)
@functools.wraps(func)
async def async_func(*args, **kwargs): ...
return async_func
```

Note the second test is `if callable(func)` (not `if not
callable(func)`): a callable raises, a non-callable is wrapped. -/
def asyncify_func (func : PyFunc) : Except PyError PyFunc :=
  if iscoroutinefunction func then .ok func
  else if pyCallable func then .error .typeError
  else .ok (.asyncWrapper func)

/-- Embeds `syncify_func` (asyncify/func.py, lines 71–115):

```
if inspect.isfunction(func) and not inspect.iscoroutinefunction(func):
    return func
if not callable(func): raise TypeError(...)
@functools.wraps(func)
def sync_func(*args, **kwargs): ...
return sync_func
``` -/
def syncify_func (func : PyFunc) : Except PyError PyFunc :=
  if isfunction func && !iscoroutinefunction func then .ok func
  else if !pyCallable func then .error .typeError
  else .ok (.syncWrapper func)

/-!
Event-loop semantics (host runtime collaborators)

`asyncio.get_running_loop` returns the event loop currently *running* in
the calling thread, or raises `RuntimeError` when there is none; a loop
it returns is therefore running.  `loop.run_until_complete` refuses a
loop that is already running (`RuntimeError: This event loop is already
running`).
-/

/-- An awaitable, identified with the outcome of awaiting it. -/
structure Awaitable where
  run : Except PyError Nat

/-- An event loop; `running` is `loop.is_running()`. -/
structure EventLoop where
  running : Bool

/-- The asyncio state of the calling thread: the loop currently running
in it, if any.  A loop that is running in the thread satisfies
`is_running()`. -/
structure AsyncioThreadState where
  runningLoop : Option EventLoop
  loop_is_running : ∀ l, runningLoop = some l → l.running = true

/-- Embeds `asyncio.get_running_loop()`. -/
def get_running_loop (st : AsyncioThreadState) : Except PyError EventLoop :=
  match st.runningLoop with
  | some l => .ok l
  | none => .error .runtimeError

/-- Embeds `loop.run_until_complete(aw)`: refuses an already-running loop,
otherwise drives the awaitable to completion. -/
def run_until_complete (loop : EventLoop) (aw : Awaitable) : Except PyError Nat :=
  if loop.running then .error .runtimeError else aw.run

/-- Result of running `func(*args)` on a worker thread, as
`loop.run_in_executor` does in `async_func`.  Coroutine functions never
reach the executor (`asyncify_func` returns them unchanged), so those
cases are modelled as a type failure. -/
def executorExec : PyFunc → List Nat → Except PyError Nat
  | .plainFn _ _ impl, args => impl args
  | .callableObj _ _ impl, args => impl args
  | _, _ => .error .typeError

/-- Awaiting the coroutine produced by `async_func(*args)`
(asyncify/func.py lines 61–66): build `functools.partial(func, *args)`
(which raises `TypeError` for a non-callable), look up the running loop,
then run the partial in the default executor. -/
def async_func_await (st : AsyncioThreadState) (func : PyFunc) (args : List Nat) :
    Except PyError Nat :=
  if !pyCallable func then .error .typeError
  else
    match get_running_loop st with
    | .error e => .error e
    | .ok _ => executorExec func args

/-- Views `func(*args)` as producing an awaitable, when it does:
calling an `async def` or an awaitable-returning callable yields an
awaitable without running its body. -/
def mkCallAwaitable (st : AsyncioThreadState) : PyFunc → List Nat → Option Awaitable
  | .coroFn _ _ impl, args => some ⟨impl args⟩
  | .callableObj _ true impl, args => some ⟨impl args⟩
  | .asyncWrapper inner, args => some ⟨async_func_await st inner args⟩
  | _, _ => none

/-- The value of a plain (non-awaited) invocation `f(*args)` in a thread
whose asyncio state is `st`.  Callables whose invocation yields an
awaitable or coroutine object produce a value outside the modelled value
universe; those cases are marked as type failures (none is exercised by
the claims).  The interesting case is `syncWrapper`: the body of
`sync_func` (asyncify/func.py lines 109–114) obtains the running loop
with `asyncio.get_running_loop()` and then calls
`loop.run_until_complete(func(*args, **kwargs))`. -/
def callValue (st : AsyncioThreadState) : PyFunc → List Nat → Except PyError Nat
  | .plainFn _ _ impl, args => impl args
  | .coroFn _ _ _, _ => .error .typeError
  | .callableObj _ false impl, args => impl args
  | .callableObj _ true _, _ => .error .typeError
  | .nonCallable _, _ => .error .typeError
  | .asyncWrapper _, _ => .error .typeError
  | .syncWrapper inner, args =>
    match get_running_loop st with
    | .error e => .error e
    | .ok loop =>
      match mkCallAwaitable st inner args with
      | some aw => run_until_complete loop aw
      | none =>
        match callValue st inner args with
        | .error e => .error e
        | .ok _ => .error .typeError

/-! ### Concrete sample callables used by the claim theorems -/

/-- A concrete plain `def` function (e.g. `def double(x): return 2 * x`). -/
def sampleCallable : PyFunc :=
  .plainFn 0 false (fun args => .ok (2 * args.headD 0))

/-- A concrete `async def` function resolving to `5`. -/
def sampleCoroFn : PyFunc :=
  .coroFn 2 false (fun _ => .ok 5)

/-- A concrete callable object (not a function object) that does not
return an awaitable. -/
def sampleCallableObj : PyFunc :=
  .callableObj 5 false (fun _ => .ok 3)

/-- A concrete awaitable-returning callable object that is not a
coroutine function. -/
def sampleAwaitableCallableObj : PyFunc :=
  .callableObj 6 true (fun _ => .ok 4)

/-- A thread with no running event loop. -/
def noLoopState : AsyncioThreadState :=
  ⟨none, fun _ h => by cases h⟩

/-- A thread inside a running event loop. -/
def runningLoopState : AsyncioThreadState :=
  ⟨some ⟨true⟩, fun l h => by cases h; rfl⟩

/-!
The module `asyncify/cls.py`.

`asyncify_class` iterates `inspect.getmembers(cls)` — the attribute
values *as seen by `getattr`*, sorted by name — and for each member that
passes `isinstance(func, (types.FunctionType, classmethod,
staticmethod))`, is not flagged `_asyncify_ignore`, and whose name does
not start with `'__'`, stores `asyncify_func(func)` back with `setattr`.

`ClassMember` models the `getattr` view of a class attribute:

* `functionM f` — the attribute value is the function object `f`.  This
  is what `getattr` yields both for plain `def` members and for members
  stored as `staticmethod` (the descriptor unwraps to the function).
* `boundMethod f` — what `getattr` yields for a `classmethod` member: a
  bound-method object, which is *not* an instance of any of the three
  types in `function_types` (the `classmethod` / `staticmethod` entries
  of that tuple are unreachable through `getmembers`).
* `otherAttr` — any non-function attribute (constants, properties, ...).
-/
inductive ClassMember where
  | functionM (f : PyFunc)
  | boundMethod (f : PyFunc)
  | otherAttr (id : Nat)

/-- Embeds `isinstance(func, function_types)`, applied to the `getattr` view of
an attribute. -/
def memberIsFunctionType : ClassMember → Bool
  | .functionM f => isfunction f
  | _ => false

/-- Embeds `getattr(func, '_asyncify_ignore', False)` on the `getattr` view (a
bound method forwards attribute access to its underlying function). -/
def memberIgnoreFlag : ClassMember → Bool
  | .functionM f => asyncifyIgnoreFlag f
  | .boundMethod f => asyncifyIgnoreFlag f
  | .otherAttr _ => false

/-- Embeds `name.startswith('__')`. -/
def startsWithDunder (name : String) : Bool :=
  match name.toList with
  | '_' :: '_' :: _ => true
  | _ => false

/-- Lexicographic order on names (Python's `str` ordering, restricted
to the code points in use). -/
def charListLt : List Char → List Char → Bool
  | [], [] => false
  | [], _ :: _ => true
  | _ :: _, [] => false
  | a :: as, b :: bs =>
    if a.toNat < b.toNat then true
    else if b.toNat < a.toNat then false
    else charListLt as bs

/-- Lexicographic order on attribute names. -/
def nameLt (a b : String) : Bool :=
  charListLt a.toList b.toList

/-- Insert into a name-sorted association list (helper for the sorted
enumeration `inspect.getmembers` produces). -/
def insertByName (p : String × ClassMember) :
    List (String × ClassMember) → List (String × ClassMember)
  | [] => [p]
  | q :: t => if nameLt q.1 p.1 then q :: insertByName p t else p :: q :: t

/-- Sorts as `inspect.getmembers` does: it enumerates attributes sorted by name. -/
def sortByName : List (String × ClassMember) → List (String × ClassMember)
  | [] => []
  | p :: t => insertByName p (sortByName t)

/-- Embeds `setattr(cls, name, value)`: replace the binding for `name` (or add
it, when the member was inherited). -/
def setMember : List (String × ClassMember) → String → ClassMember →
    List (String × ClassMember)
  | [], name, m => [(name, m)]
  | (n, v) :: t, name, m =>
    if n = name then (name, m) :: t else (n, v) :: setMember t name m

/-- One iteration of the `asyncify_class` loop (asyncify/cls.py lines
73–84): skip the member when it is not a function-type value, carries
the ignore flag, or is dunder-named; otherwise replace it with
`asyncify_func(func)` — and propagate the exception `asyncify_func`
raises, if any. -/
def asyncifyClassStep (cls : List (String × ClassMember)) :
    String × ClassMember → Except PyError (List (String × ClassMember))
  | (name, m) =>
    if !memberIsFunctionType m || memberIgnoreFlag m || startsWithDunder name then
      .ok cls
    else
      match m with
      | .functionM f => (asyncify_func f).map fun g => setMember cls name (.functionM g)
      | _ => .ok cls

/-- Embeds `asyncify_class` (asyncify/cls.py lines 38–84): fold the loop body
over the name-sorted member snapshot, mutating the class as it goes. -/
def asyncify_class (cls : List (String × ClassMember)) :
    Except PyError (List (String × ClassMember)) :=
  (sortByName cls).foldlM asyncifyClassStep cls

/-- The concrete class of the spec's test scenario: a plain method `a`,
a method `b` marked with `asyncify.ignore`, and a dunder method. -/
def sampleClass : List (String × ClassMember) :=
  [("a", .functionM (.plainFn 10 false (fun _ => .ok 1))),
   ("b", .functionM (.plainFn 11 true (fun _ => .ok 2))),
   ("__init__", .functionM (.plainFn 12 false (fun _ => .ok 0)))]

/-!
The module `asyncify/hybrid.py`.

`HybridFunction` keeps a name, a sync callback and an async callback.
At call time it walks the caller's stack for the first source line
containing its name, strips it, and tests it against the regex
`await\s+(\w|\.)*\(.*\)`; when the regex matches and the name occurs in
the matched span, the async callback is invoked, otherwise the sync one.
The regex is embedded as a direct decision procedure: for this pattern,
greedy matching of `\s+` and `(\w|\.)*` never needs to backtrack (no
whitespace or word character can satisfy the following literal `(`),
and the greedy `.*\)` selects the last `)` in the newline-free prefix.
`re.search` returns the match at the leftmost feasible start position.
-/

/-- An opaque Python object as an argument value: identity plus its
truth value (`bool(obj)`). -/
structure PyVal where
  id : Nat
  truthy : Bool
deriving DecidableEq

/-- A callback with its declared parameter count
(`len(inspect.signature(cb).parameters)`) and its result on a list of
arguments (for the async callback: the resolved value of the coroutine
it produces). -/
structure SigCallable where
  arity : Nat
  run : List PyVal → PyVal

/-- What a `HybridFunction.__call__` evaluates to: the sync callback's
direct value, or an awaitable resolving to the async callback's value. -/
inductive HybridOutcome where
  | sync (v : PyVal)
  | async (v : PyVal)
deriving DecidableEq

/-- Python's `\s` (ASCII range). -/
def isPySpace (c : Char) : Bool :=
  c = ' ' || c = '\t' || c = '\n' || c = '\r' || c = '\x0b' || c = '\x0c'

/-- Python's `\w` (ASCII range). -/
def isWordChar (c : Char) : Bool :=
  c.isAlphanum || c = '_'

/-- A character matched by the regex's `(\w|\.)` group. -/
def isDotOrWord (c : Char) : Bool :=
  isWordChar c || c = '.'

/-- Python's `a in b` on strings: contiguous-substring containment. -/
def containsSub (needle : List Char) (hay : List Char) : Bool :=
  if needle.isPrefixOf hay then true
  else
    match hay with
    | [] => false
    | _ :: t => containsSub needle t

/-- Length of the maximal prefix satisfying `p` (greedy `p*`). -/
def countWhileP (p : Char → Bool) : List Char → Nat
  | [] => 0
  | c :: t => if p c then countWhileP p t + 1 else 0

/-- Index of the last `)` in the newline-free prefix of `l`: the end
chosen by the greedy `.*\)` (where `.` does not match a newline). -/
def lastParenIdx : List Char → Option Nat
  | [] => none
  | c :: t =>
    if c = '\n' then none
    else
      match lastParenIdx t with
      | some k => some (k + 1)
      | none => if c = ')' then some 0 else none

/-- Match `await\s+(\w|\.)*\(.*\)` anchored at the head of `l`,
returning the length of the match. -/
def matchAwaitHere (l : List Char) : Option Nat :=
  if ("await".toList).isPrefixOf l then
    let r1 := l.drop 5
    let nws := countWhileP isPySpace r1
    if nws = 0 then none
    else
      let r2 := r1.drop nws
      let nw := countWhileP isDotOrWord r2
      match r2.drop nw with
      | '(' :: r4 =>
        match lastParenIdx r4 with
        | some k => some (5 + nws + nw + 1 + k + 1)
        | none => none
      | _ => none
  else none

/-- Embeds `HybridFunction.regex.search`: the span `(start, stop)` of the match
at the leftmost position where the pattern matches, if any. -/
def searchAwait : List Char → Nat → Option (Nat × Nat)
  | [], _ => none
  | c :: t, i =>
    match matchAwaitHere (c :: t) with
    | some len => some (i, i + len)
    | none => searchAwait t (i + 1)

/-- Embeds `HybridFunction._check_regex` (asyncify/hybrid.py lines 40–49):
search the pattern in the stripped caller line and require the
dispatcher's name to occur inside the matched span. -/
def check_regex (name : String) (code_context : String) : Bool :=
  match searchAwait code_context.toList 0 with
  | none => false
  | some (a, b) =>
    containsSub name.toList ((code_context.toList.drop a).take (b - a))

/-- Python's `str.strip()`. -/
def pyStrip (s : String) : String :=
  String.mk (((s.toList.dropWhile isPySpace).reverse.dropWhile isPySpace).reverse)

/-- A stack frame as `inspect.getouterframes` presents it: its
`code_context` line, when source is available. -/
structure Frame where
  code_context : Option String

/-- Embeds `HybridFunction._get_frame` (asyncify/hybrid.py lines 51–58): the
first outer frame with a source line containing the dispatcher's name;
`RuntimeError` when none exists. -/
def getFrameLine (name : String) : List Frame → Except PyError String
  | [] => .error .runtimeError
  | f :: rest =>
    match f.code_context with
    | none => getFrameLine name rest
    | some line =>
      if containsSub name.toList line.toList then .ok line
      else getFrameLine name rest

/-- The state of a `HybridFunction` object: `_name`, the two callbacks,
and `_instance` (set by `__get__`, initially `None`). -/
structure HybridFunction where
  name : String
  sync_callback : SigCallable
  async_callback : SigCallable
  inst : Option PyVal

/-- Embeds `HybridFunction.__init__` (asyncify/hybrid.py lines 23–33): raises
`TypeError` when the two callbacks' declared parameter counts differ. -/
def HybridFunction.init (name : String) (sync_callback async_callback : SigCallable) :
    Except PyError HybridFunction :=
  if sync_callback.arity ≠ async_callback.arity then .error .typeError
  else .ok ⟨name, sync_callback, async_callback, none⟩

/-- Embeds `HybridFunction.__get__` (lines 35–38): a fresh dispatcher with the
same name and callbacks, carrying the accessed instance. -/
def HybridFunction.get (h : HybridFunction) (instanceObj : Option PyVal) : HybridFunction :=
  { h with inst := instanceObj }

/-- The argument list the callbacks receive: `__call__` starts with
`if self._instance: args = (self._instance, *args)` — a *truthiness*
test, so a falsy instance is not prepended. -/
def fullArgs (h : HybridFunction) (args : List PyVal) : List PyVal :=
  match h.inst with
  | some v => if v.truthy then v :: args else args
  | none => args

/-- Embeds `HybridFunction.__call__` (lines 60–70): prepend the instance when
truthy, locate the caller's source line, and dispatch on the regex
check of the stripped line. -/
def HybridFunction.call (h : HybridFunction) (frames : List Frame) (args : List PyVal) :
    Except PyError HybridOutcome :=
  let args2 := fullArgs h args
  match getFrameLine h.name frames with
  | .error e => .error e
  | .ok line =>
    if check_regex h.name (pyStrip line) then
      .ok (.async (h.async_callback.run args2))
    else
      .ok (.sync (h.sync_callback.run args2))

/-- A concrete sync callback of arity 0 returning `1`. -/
def sampleSyncCb : SigCallable := ⟨0, fun _ => ⟨1, true⟩⟩

/-- A concrete async callback of arity 0 resolving to `2`. -/
def sampleAsyncCb : SigCallable := ⟨0, fun _ => ⟨2, true⟩⟩

/-- A concrete callback of arity 2 (`sync(a, b)`). -/
def sampleTwoArgCb : SigCallable := ⟨2, fun _ => ⟨1, true⟩⟩

/-- A concrete callback of arity 1 (`async(a)`). -/
def sampleOneArgCb : SigCallable := ⟨1, fun _ => ⟨2, true⟩⟩

/-!
The module `asyncify/events.py`.

`AsyncifyEventLoopPolicy.event` registers a hook for one of five policy
methods; `_ChangingEventLoopPolicyBaseMeta.change_base_policy` swaps the
base policy class.  Policy classes are modelled by their qualified name,
their tuple of direct bases (`__bases__`) and their ancestor set (for
the spec's "derives from" notion); invocations are modelled by traces of
`(callable id, argument list)` events so that hook ordering and result
discarding are observable.
-/

/-- A Python class, seen through `__bases__` (direct bases) and its
full ancestry. -/
structure PyClassInfo where
  name : String
  bases : List String
  ancestors : List String

/-- Embeds `issubclass(c, b)` — the spec's "derives from the abstract
event-loop-policy capability". -/
def isSubclassOf (c : PyClassInfo) (b : String) : Bool :=
  c.ancestors.contains b

/-- Embeds `_ChangingEventLoopPolicyBaseMeta.change_base_policy`
(asyncify/events.py lines 32–37), exactly as written:

```
if asyncio.AbstractEventLoop not in policy_cls.__bases__:
    raise TypeError('policy_cls must inherited from asyncio.AbstractEventLoop')
cls.__bases__ = (policy_cls,)
```

Note it tests membership of `asyncio.AbstractEventLoop` — the loop
class, not the policy class — in the *direct* bases.  On success the
result is the new `__bases__` tuple of the host class. -/
def change_base_policy (policy_cls : PyClassInfo) : Except PyError (List String) :=
  if policy_cls.bases.contains "asyncio.AbstractEventLoop" then
    .ok [policy_cls.name]
  else
    .error .typeError

/-- Models `asyncio.DefaultEventLoopPolicy` as shipped by the host runtime: it
derives from `AbstractEventLoopPolicy` through
`BaseDefaultEventLoopPolicy`, and `AbstractEventLoop` is nowhere in its
ancestry. -/
def defaultEventLoopPolicyClass : PyClassInfo :=
  { name := "asyncio.DefaultEventLoopPolicy"
  , bases := ["asyncio.BaseDefaultEventLoopPolicy"]
  , ancestors :=
      ["asyncio.DefaultEventLoopPolicy", "asyncio.BaseDefaultEventLoopPolicy",
       "asyncio.AbstractEventLoopPolicy", "object"] }

/-- Models `sys.platform`, as far as `event` distinguishes it. -/
inductive Platform where
  | win32
  | posix
deriving DecidableEq

/-- A base-policy bound method: an identity for the invocation trace and
its result on the call arguments. -/
structure Callback where
  id : Nat
  run : List Nat → Nat

/-- The `func` passed to `policy.event`: its `__name__`, whether it is
callable, an identity for the trace, and its (discarded) return value. -/
structure EventHook where
  id : Nat
  name : String
  isCallable : Bool
  run : List Nat → Nat

/-- Embeds `_valid_names` (asyncify/events.py lines 23–29). -/
def validNames : List String :=
  ["get_event_loop", "set_event_loop", "new_event_loop",
   "get_child_watcher", "set_child_watcher"]

/-- An `AsyncifyEventLoopPolicy` instance: the base-policy methods
(reached through `super()`), and the instance attributes installed by
`event` via `setattr(self, old.__name__, updated)` — newest first, and
attribute lookup finds the newest, so re-registration overwrites. -/
structure Policy where
  base : String → Callback
  overrides : List (String × EventHook × Callback)

/-- Embeds `AsyncifyEventLoopPolicy.event` (asyncify/events.py lines 102–129):
reject non-callables with `TypeError`, reject child-watcher hooks on
win32 with `RuntimeError`, reject unrecognized names with
`RuntimeError`; otherwise capture `old = getattr(super(), func.__name__)`
and install the `updated` wrapper as the instance attribute. -/
def Policy.event (pol : Policy) (plat : Platform) (func : EventHook) :
    Except PyError Policy :=
  if !func.isCallable then .error .typeError
  else if plat = Platform.win32 ∧
      (func.name = "get_child_watcher" ∨ func.name = "set_child_watcher") then
    .error .runtimeError
  else if func.name ∉ validNames then .error .runtimeError
  else
    .ok { pol with overrides := (func.name, func, pol.base func.name) :: pol.overrides }

/-- Instance-attribute lookup for a policy method name. -/
def lookupOverride : List (String × EventHook × Callback) → String →
    Option (EventHook × Callback)
  | [], _ => none
  | (n, h, c) :: t, name =>
    if n = name then some (h, c) else lookupOverride t name

/-- Calling `policy.<name>(*args)`: Python finds the instance attribute
first, so a registered `updated` wrapper runs — it invokes the hook,
discards its result, then invokes and returns the captured base method
(`func(*args, **kwargs); return old(*args, **kwargs)`).  The first
component is the invocation trace, as `(callable id, arguments)` events
in order; the second is the call's return value. -/
def Policy.callMethod (pol : Policy) (name : String) (args : List Nat) :
    List (Nat × List Nat) × Nat :=
  match lookupOverride pol.overrides name with
  | some (hook, old) => ([(hook.id, args), (old.id, args)], old.run args)
  | none => ([((pol.base name).id, args)], (pol.base name).run args)

/-- A concrete policy with base methods of trace id 0 returning `0`. -/
def samplePolicy : Policy := ⟨fun _ => ⟨0, fun _ => 0⟩, []⟩

/-- A concrete hook named `new_event_loop`, trace id 1. -/
def sampleHook : EventHook := ⟨1, "new_event_loop", true, fun _ => 99⟩

end Asyncify

namespace Asyncify

/-- Claim C1.  The claim says `asyncify_func(f)` returns an awaitable
wrapper for every callable, non-awaitable-returning `f`.  The code's
second check reads `if callable(func): raise TypeError(...)` — the
condition is inverted — so wrapping any plain callable raises
`TypeError` at wrap time instead of producing a wrapper, contradicting
the function's own docstring (whose example decorates `def get(url)`). -/
theorem C1_asyncify_func_raises_on_plain_callable :
    pyCallable sampleCallable = true ∧
    returnsAwaitable sampleCallable = false ∧
    asyncify_func sampleCallable = .error .typeError := by
  refine ⟨rfl, rfl, ?_⟩
  simp [asyncify_func, sampleCallable, iscoroutinefunction, pyCallable]

/-- Claim C2.  The claim says `asyncify_func` raises `TypeError` exactly
when its argument is not callable (and not a coroutine function).  The
code does precisely the opposite: for every input, the wrap-time
`TypeError` fires iff the input **is** callable and not a coroutine
function, while a non-callable is silently wrapped. -/
theorem C2_asyncify_func_typeerror_iff_callable (func : PyFunc) :
    asyncify_func func = .error .typeError ↔
      (pyCallable func = true ∧ iscoroutinefunction func = false) := by
  cases func <;> simp [asyncify_func, pyCallable, iscoroutinefunction]

/-- Claim C4.  The claim says that, with an active scheduler, calling
`syncify_func(g)(*args)` blocks until `g(*args)`'s awaitable completes
and returns its resolved value.  The wrapper body instead pairs
`asyncio.get_running_loop()` with `loop.run_until_complete(...)`: with
no running loop the former raises `RuntimeError`, and with a running
loop the latter refuses the already-running loop with `RuntimeError` —
so the call never returns the resolved value, contradicting the
docstring's claim of equivalence to
`asyncio.get_event_loop().run_until_complete(...)` and its
`coroutine_func()  # can be directly called` example. -/
theorem C4_syncify_call_always_raises (func : PyFunc) (st : AsyncioThreadState)
    (args : List Nat) (h : returnsAwaitable func = true) :
    syncify_func func = .ok (.syncWrapper func) ∧
    callValue st (.syncWrapper func) args = .error .runtimeError := by
  constructor
  · cases func <;>
      simp_all [syncify_func, returnsAwaitable, isfunction, iscoroutinefunction, pyCallable]
  · rw [callValue]
    cases hst : st.runningLoop with
    | none => simp [get_running_loop, hst]
    | some l =>
      have hr := st.loop_is_running l hst
      cases func <;>
        simp_all [get_running_loop, mkCallAwaitable, run_until_complete, returnsAwaitable]

/-- Witness for `C4_syncify_call_always_raises`: the concrete
`async def` function, called from inside a running loop with no
arguments. -/
theorem C4_syncify_call_always_raises_witness :
    syncify_func sampleCoroFn = .ok (.syncWrapper sampleCoroFn) ∧
    callValue runningLoopState (.syncWrapper sampleCoroFn) [] = .error .runtimeError :=
  C4_syncify_call_always_raises sampleCoroFn runningLoopState [] rfl

/-- Claim C8, counterexample.  The claim states `syncify_func(f) is f` for
*every* callable non-awaitable-returning `f`, and `asyncify_func(f) is
f` for *every* awaitable-returning `f`.  Both halves fail on callable
objects that are not function objects: `syncify_func` wraps such an
object (its fast path tests `inspect.isfunction`), and `asyncify_func`
raises `TypeError` on an awaitable-returning callable object (its fast
path tests `inspect.iscoroutinefunction`, and the inverted callable
check then fires). -/
theorem C8_identity_fails_for_callable_objects :
    (pyCallable sampleCallableObj = true ∧
      returnsAwaitable sampleCallableObj = false ∧
      syncify_func sampleCallableObj ≠ .ok sampleCallableObj) ∧
    (returnsAwaitable sampleAwaitableCallableObj = true ∧
      asyncify_func sampleAwaitableCallableObj ≠ .ok sampleAwaitableCallableObj) := by
  constructor
  · refine ⟨rfl, rfl, ?_⟩
    simp [syncify_func, sampleCallableObj, isfunction, iscoroutinefunction, pyCallable]
  · refine ⟨rfl, ?_⟩
    simp [asyncify_func, sampleAwaitableCallableObj, iscoroutinefunction, pyCallable]

/-- Claim C8, amended.  The identity laws hold with the conditions the
code actually tests: `syncify_func(f)` is `f` itself when `f` is a
function object that is not a coroutine function, and
`asyncify_func(f)` is `f` itself when `f` is a coroutine function. -/
theorem C8_identity_on_function_objects :
    (∀ f : PyFunc, isfunction f = true → iscoroutinefunction f = false →
      syncify_func f = .ok f) ∧
    (∀ f : PyFunc, iscoroutinefunction f = true → asyncify_func f = .ok f) := by
  constructor
  · intro f hfn hco
    simp [syncify_func, hfn, hco]
  · intro f hco
    simp [asyncify_func, hco]

/-- Witness for `C8_identity_on_function_objects` at the concrete plain
function and the concrete coroutine function. -/
theorem C8_identity_on_function_objects_witness :
    syncify_func sampleCallable = .ok sampleCallable ∧
    asyncify_func sampleCoroFn = .ok sampleCoroFn :=
  ⟨C8_identity_on_function_objects.1 sampleCallable rfl rfl,
   C8_identity_on_function_objects.2 sampleCoroFn rfl⟩

/-- Claim C3.  The claim says `asyncify_class` replaces every eligible
member with its `asyncify_func`-wrapped version and returns the mutated
class.  On the spec's own scenario — plain method `a`, ignored method
`b`, a dunder method — the first eligible member (`a`) makes
`asyncify_func` raise `TypeError` (its callable check is inverted), so
`asyncify_class` raises instead of returning the class, contradicting
its docstring examples.  (Independently, class-bound functions could
never be wrapped: `getmembers` presents a `classmethod` as a
bound-method object, which fails the `function_types` check.) -/
theorem C3_asyncify_class_raises_on_plain_method :
    asyncify_class sampleClass = .error .typeError := by
  rfl

/-- Claim C5.  The claim says `change_base_policy(policy_cls)` succeeds
when `policy_cls` derives from the abstract event-loop-policy capability
and raises `TypeError` otherwise.  The code instead requires
`asyncio.AbstractEventLoop` — the loop class, not the policy class — to
be a *direct* base, so the runtime's own `DefaultEventLoopPolicy` (a
subclass of `AbstractEventLoopPolicy`, exactly what the method's
annotation `Type[asyncio.AbstractEventLoopPolicy]` and its
`uvloop.EventLoopPolicy` docstring example call for) is rejected with
`TypeError`. -/
theorem C5_change_base_policy_rejects_policy_classes :
    isSubclassOf defaultEventLoopPolicyClass "asyncio.AbstractEventLoopPolicy" = true ∧
    change_base_policy defaultEventLoopPolicyClass = .error .typeError := by
  constructor
  · decide
  · rfl

/-- Claim C6.  For a dispatcher named `n` whose caller's source line `s`
contains `n` (so the frame walk selects that line): when the stripped
line fails the await-plus-name check the call invokes and returns the
sync callback's result, and when it passes the check the call invokes
the async callback and yields the awaitable of its result. -/
theorem C6_hybrid_dispatch (n s : String) (sc ac : SigCallable) (args : List PyVal)
    (hin : containsSub n.toList s.toList = true) :
    (check_regex n (pyStrip s) = false →
      HybridFunction.call ⟨n, sc, ac, none⟩ [⟨some s⟩] args = .ok (.sync (sc.run args))) ∧
    (check_regex n (pyStrip s) = true →
      HybridFunction.call ⟨n, sc, ac, none⟩ [⟨some s⟩] args = .ok (.async (ac.run args))) := by
  simp only [String.toList] at hin
  constructor <;> intro hc <;>
    simp [HybridFunction.call, getFrameLine, hin, fullArgs, hc]

/-- Witness for `C6_hybrid_dispatch`: the dispatcher named `"foo"` at
the call site `await foo()` dispatches to the async callback, and at
the call site `x = foo()` to the sync callback. -/
theorem C6_hybrid_dispatch_witness :
    HybridFunction.call ⟨"foo", sampleSyncCb, sampleAsyncCb, none⟩
        [⟨some "await foo()"⟩] [] = .ok (.async (sampleAsyncCb.run [])) ∧
    HybridFunction.call ⟨"foo", sampleSyncCb, sampleAsyncCb, none⟩
        [⟨some "x = foo()"⟩] [] = .ok (.sync (sampleSyncCb.run [])) :=
  ⟨(C6_hybrid_dispatch "foo" "await foo()" sampleSyncCb sampleAsyncCb []
      (by decide)).2 (by decide),
   (C6_hybrid_dispatch "foo" "x = foo()" sampleSyncCb sampleAsyncCb []
      (by decide)).1 (by decide)⟩

/-- Claim C7.  After `policy.event(func)` succeeds for a recognized
name, calling the policy's method of that name produces the invocation
trace "hook with the arguments, then the captured base implementation
with the same arguments" and returns the base implementation's result —
the hook's own return value (`func.run`) appears nowhere in the
outcome. -/
theorem C7_event_hook_wraps_method (plat : Platform) (pol : Policy) (func : EventHook)
    (h1 : func.isCallable = true)
    (h2 : func.name ∈ validNames)
    (h3 : ¬(plat = Platform.win32 ∧
      (func.name = "get_child_watcher" ∨ func.name = "set_child_watcher"))) :
    ∃ pol2, pol.event plat func = .ok pol2 ∧
      ∀ args, pol2.callMethod func.name args =
        ([(func.id, args), ((pol.base func.name).id, args)],
         (pol.base func.name).run args) := by
  refine ⟨{ pol with overrides := (func.name, func, pol.base func.name) :: pol.overrides },
    ?_, ?_⟩
  · simp [Policy.event, h1, h2, h3]
  · intro args
    simp [Policy.callMethod, lookupOverride]

/-- Witness for `C7_event_hook_wraps_method`: registering the concrete
`new_event_loop` hook on the concrete policy. -/
theorem C7_event_hook_wraps_method_witness :
    ∃ pol2, samplePolicy.event Platform.posix sampleHook = .ok pol2 ∧
      ∀ args, pol2.callMethod sampleHook.name args =
        ([(sampleHook.id, args), ((samplePolicy.base sampleHook.name).id, args)],
         (samplePolicy.base sampleHook.name).run args) :=
  C7_event_hook_wraps_method Platform.posix samplePolicy sampleHook rfl
    (by decide) (by decide)

/-- Claim C9.  Constructing a `HybridFunction` whose two callbacks
declare different parameter counts raises `TypeError` at construction
time. -/
theorem C9_hybrid_arity_mismatch (n : String) (sc ac : SigCallable)
    (h : sc.arity ≠ ac.arity) :
    HybridFunction.init n sc ac = .error .typeError := by
  simp [HybridFunction.init, h]

/-- Witness for `C9_hybrid_arity_mismatch`: a two-parameter sync
callback paired with a one-parameter async callback. -/
theorem C9_hybrid_arity_mismatch_witness :
    HybridFunction.init "f" sampleTwoArgCb sampleOneArgCb = .error .typeError :=
  C9_hybrid_arity_mismatch "f" sampleTwoArgCb sampleOneArgCb (by decide)

/-- Claim C10.  When a dispatcher is accessed as a class member and
called on an instance, `__call__` prepends the instance with `if
self._instance:` — a truthiness test.  A falsy instance is therefore not
prepended (both callbacks get the bare arguments, as the sync-dispatch
conclusion shows), while a truthy instance is. -/
theorem C10_falsy_instance_not_prepended (n s : String) (sc ac : SigCallable)
    (v : PyVal) (args : List PyVal)
    (hin : containsSub n.toList s.toList = true)
    (hfalsy : v.truthy = false) :
    fullArgs (HybridFunction.get ⟨n, sc, ac, none⟩ (some v)) args = args ∧
    (check_regex n (pyStrip s) = false →
      HybridFunction.call (HybridFunction.get ⟨n, sc, ac, none⟩ (some v))
        [⟨some s⟩] args = .ok (.sync (sc.run args))) ∧
    (∀ w : PyVal, w.truthy = true →
      fullArgs (HybridFunction.get ⟨n, sc, ac, none⟩ (some w)) args = w :: args) := by
  refine ⟨?_, ?_, ?_⟩
  · simp [fullArgs, HybridFunction.get, hfalsy]
  · intro hc
    simp only [String.toList] at hin
    simp [HybridFunction.call, HybridFunction.get, getFrameLine, hin, fullArgs, hfalsy, hc]
  · intro w hw
    simp [fullArgs, HybridFunction.get, hw]

/-- Witness for `C10_falsy_instance_not_prepended`: a falsy instance at
a bare call site `foo()`, and a truthy instance for the prepending
half. -/
theorem C10_falsy_instance_not_prepended_witness :
    fullArgs (HybridFunction.get ⟨"foo", sampleSyncCb, sampleAsyncCb, none⟩
      (some ⟨7, false⟩)) [] = [] ∧
    (check_regex "foo" (pyStrip "foo()") = false →
      HybridFunction.call (HybridFunction.get ⟨"foo", sampleSyncCb, sampleAsyncCb, none⟩
        (some ⟨7, false⟩)) [⟨some "foo()"⟩] [] = .ok (.sync (sampleSyncCb.run []))) ∧
    (∀ w : PyVal, w.truthy = true →
      fullArgs (HybridFunction.get ⟨"foo", sampleSyncCb, sampleAsyncCb, none⟩
        (some w)) [] = w :: []) :=
  C10_falsy_instance_not_prepended "foo" "foo()" sampleSyncCb sampleAsyncCb
    ⟨7, false⟩ [] (by decide) rfl

end Asyncify
